import Mathlib

deriving instance DecidableEq for Except

/-!
Shallow embedding of `src/server/src/data/users.ts` (the UserDirectory module):
user-account creation, retrieval, deletion, article association and
credential checking against a document store.

Modelling conventions:
* JavaScript string values that may be either raw strings or bcrypt hash
  outputs are modelled by `PwVal`: `PwVal.str s` is a plain string and
  `PwVal.hashOf p cost salt` is the output of `bcrypt.hash` on value `p`
  with the given cost and the random salt drawn for that call.  A bcrypt
  hash string (format `$2b$...`, 60 characters) is never equal to the
  plaintext it encodes, which the free constructor captures.
* `bcrypt.compare(candidate, stored)` succeeds exactly when `stored` is a
  well-formed hash whose plaintext equals `candidate`; on a non-hash
  string it returns false.
* Mongo ObjectIds are `IdVal.oid s`; `cleanUserObject` rewrites `_id`
  to `IdVal.str s`, mirroring `userObject._id.toString()`.
* The document store is an in-memory list of records; each operation also
  returns the list of store reads/writes it performed (`StoreOp`), so that
  "no store access" is a provable statement.  The fresh ObjectId chosen by
  `insertOne` and the salt drawn by `bcrypt.hash` are explicit parameters.
* The store's responses are deterministic in this model; trace variants
  (`createUserTr`, `deleteUserByIdTr`) take the store responses as inputs
  to model runs where the store misbehaves between two awaits.
-/

namespace Users

/-- Value domain for password fields: a plain JavaScript string, or the
output of `bcrypt.hash` on a value with a cost factor and a salt. -/
inductive PwVal where
  | str (s : String)
  | hashOf (p : PwVal) (cost : Nat) (salt : Nat)
deriving DecidableEq, Repr

/-- Model of `bcrypt.hash(plaintext, cost)`; the salt drawn by the call is
an explicit parameter. -/
def bcryptHash (p : PwVal) (cost : Nat) (salt : Nat) : PwVal :=
  PwVal.hashOf p cost salt

/-- Model of `bcrypt.compare(candidate, stored)`: true exactly when
`stored` is a hash whose plaintext equals `candidate`; comparing against a
value that is not a bcrypt hash yields false. -/
def bcryptCompare (candidate stored : PwVal) : Bool :=
  match stored with
  | PwVal.hashOf p _ _ => decide (candidate = p)
  | PwVal.str _ => false

/-- Identifier values: `oid` is the store's native ObjectId (wrapping its
hex string), `str` a plain string as produced by `toString()`. -/
inductive IdVal where
  | oid (s : String)
  | str (s : String)
deriving DecidableEq, Repr

/-- Model of `ObjectId.prototype.toString()` (and of `toString` on a value
that is already a plain string). -/
def idToString : IdVal → String
  | IdVal.oid s => s
  | IdVal.str s => s

/-- Model of `new ObjectId(id)` for a string that passed `ObjectId.isValid`. -/
def mkObjectId (s : String) : IdVal := IdVal.oid s

/-- User record as stored and as returned (`model/user.ts` shape): Mongo
documents inserted by `createUser` carry no `articles` field, which behaves
exactly like an empty list under `$addToSet`, so `articles` is a list that
starts empty. -/
structure User where
  _id : IdVal
  email : String
  username : String
  password : PwVal
  articles : List String
deriving DecidableEq, Repr

/-- Model of `validator.trim`: strip leading and trailing whitespace. -/
def strTrim (s : String) : String :=
  String.mk (((s.data.dropWhile Char.isWhitespace).reverse.dropWhile Char.isWhitespace).reverse)

/-- Split a character list at every occurrence of a separator. -/
def splitOnChar (sep : Char) : List Char → List (List Char)
  | [] => [[]]
  | c :: rest =>
    let r := splitOnChar sep rest
    if c = sep then [] :: r
    else
      match r with
      | [] => [[c]]
      | h :: t => (c :: h) :: t

/-- Simplified model of the external `validator.isEmail` primitive: exactly
one `@`, a nonempty whitespace-free local part, and a dotted domain of
nonempty alphanumeric-or-dash labels (at least two labels). -/
def isEmail (s : String) : Bool :=
  match splitOnChar '@' s.data with
  | [loc, dom] =>
    let parts := splitOnChar '.' dom
    decide (loc ≠ []) && loc.all (fun c => !c.isWhitespace) &&
      decide (2 ≤ parts.length) &&
      parts.all (fun p => decide (p ≠ []) && p.all (fun c => c.isAlpha || c.isDigit || c = '-'))
  | _ => false

/-- Model of `validator.isAlphanumeric` (en-US locale): nonempty and all
characters ASCII letters or digits. -/
def isAlphanumeric (s : String) : Bool :=
  decide (s.data ≠ []) && s.data.all (fun c => c.isAlpha || c.isDigit)

/-- Code points of the symbol class used by `validator.isStrongPassword`
(the set includes the space character). -/
def symbolCodes : List Nat :=
  [45, 35, 33, 36, 64, 163, 37, 94, 38, 42, 40, 41, 95, 43, 124, 126, 61,
   96, 123, 125, 91, 93, 58, 34, 59, 39, 60, 62, 63, 44, 46, 47, 32]

/-- Model of `validator.isStrongPassword` with its default options:
length at least 8 and at least one lowercase, uppercase, digit and symbol. -/
def isStrongPassword (s : String) : Bool :=
  let l := s.data
  decide (8 ≤ l.length) &&
    decide (1 ≤ l.countP (fun c => c.isLower)) &&
    decide (1 ≤ l.countP (fun c => c.isUpper)) &&
    decide (1 ≤ l.countP (fun c => c.isDigit)) &&
    decide (1 ≤ l.countP (fun c => symbolCodes.contains c.toNat))

/-- Model of `ObjectId.isValid` on strings: a 24-character hex string. -/
def isValidObjectId (s : String) : Bool :=
  decide (s.length = 24) && s.data.all (fun c => c.isDigit || ('a' ≤ c && c ≤ 'f') || ('A' ≤ c && c ≤ 'F'))

/-- Model of `getFunctionSignature` from `utils/helpers` (not under `src/`);
it only decorates messages, so the model returns the operation name. -/
def getFunctionSignature (functionName : String) : String := functionName

/-- Errors thrown by the module.  `validation` and `typeError` come from
the source itself (template-literal throws, and the runtime `TypeError`
raised by `cleanUserObject` on a `null` record).  The remaining
constructors stand for the `ErrorMessages` builders, whose module is not
under `src/`; they are modelled from the spec's error taxonomy
(`ConflictError`, `NotFoundError`, `PersistenceError`,
`AuthenticationError`), each carrying the function signature and the
offending values, so errors of different classes are distinguishable and
errors of one class with equal data are indistinguishable. -/
inductive Err where
  | validation (sig field value : String)
  | conflict (sig email : String)
  | notFound (sig id : String)
  | notCreated (sig email : String)
  | notDeleted (sig id : String)
  | articleNotAdded (sig userId articleId : String)
  | authEmail (sig email : String)
  | authUsername (sig username : String)
  | typeError
deriving DecidableEq, Repr

/-- Modelled from the spec: which `Err` constructors are the spec's
`PersistenceError` class (`userNotCreated`, `userNotDeletedFromDatabase`,
`articleNotAddedToUser`). -/
def isPersistenceError : Err → Bool
  | Err.notCreated _ _ => true
  | Err.notDeleted _ _ => true
  | Err.articleNotAdded _ _ _ => true
  | _ => false

/-- Modelled from the spec: which `Err` constructors are the spec's
`AuthenticationError` class (`userWithEmailNotFound`,
`userWithUsernameNotFound`). -/
def isAuthenticationError : Err → Bool
  | Err.authEmail _ _ => true
  | Err.authUsername _ _ => true
  | _ => false

/-- Modelled from the spec: which `Err` constructors are the spec's
`ValidationError` class (the in-source template-literal throws and
`objectIdNotValid`). -/
def isValidationError : Err → Bool
  | Err.validation _ _ _ => true
  | _ => false

/-- The document store: the user collection's records, in insertion order. -/
structure DB where
  users : List User
deriving DecidableEq, Repr

/-- One read or write issued to the store by an operation. -/
inductive StoreOp where
  | findOneEmail (email : String)
  | findAllEmail (email : String)
  | findAllUsername (username : String)
  | findOneId (id : String)
  | insertOne (email username : String)
  | updateAddToSet (userId articleId : String)
  | deleteOneId (id : String)
deriving DecidableEq, Repr

/-- Result of one operation: the returned value or thrown error, the store
state afterwards, and the store accesses performed, in order. -/
structure Res (α : Type) where
  result : Except Err α
  db : DB
  log : List StoreOp
deriving Repr

/-- Store read `findOne({email})`: first record with that email. -/
def dbFindOneByEmail (db : DB) (e : String) : Option User :=
  db.users.find? (fun u => decide (u.email = e))

/-- Store read `find({email}).toArray()`: all records with that email. -/
def dbFindByEmail (db : DB) (e : String) : List User :=
  db.users.filter (fun u => decide (u.email = e))

/-- Store read `find({username}).toArray()`: all records with that username. -/
def dbFindByUsername (db : DB) (n : String) : List User :=
  db.users.filter (fun u => decide (u.username = n))

/-- Store read `findOne({_id})`: first record with that identifier. -/
def dbFindOneById (db : DB) (i : IdVal) : Option User :=
  db.users.find? (fun u => decide (u._id = i))

/-- Remove the first record carrying an identifier (Mongo `deleteOne`). -/
def removeFirstById (i : IdVal) : List User → List User
  | [] => []
  | u :: rest => if u._id = i then rest else u :: removeFirstById i rest

/-- Store write `deleteOne({_id})`: delete the first matching record and
report the deleted count. -/
def dbDeleteOneById (db : DB) (i : IdVal) : DB × Nat :=
  if db.users.any (fun u => decide (u._id = i)) then
    (⟨removeFirstById i db.users⟩, 1)
  else (db, 0)

/-- Effect of `$addToSet: \x7b articles: a \x7d` on one document. -/
def addToSetArticles (a : String) (u : User) : User :=
  if a ∈ u.articles then u else { u with articles := u.articles ++ [a] }

/-- Store write `updateOne({_id}, {$addToSet: {articles}})` on the record
list: update the first matching record, reporting the modified count
(0 when the document was absent or the article already present). -/
def updateOneAddToSet : List User → IdVal → String → List User × Nat
  | [], _, _ => ([], 0)
  | u :: rest, i, a =>
    if u._id = i then
      if a ∈ u.articles then (u :: rest, 0)
      else ({ u with articles := u.articles ++ [a] } :: rest, 1)
    else
      let r := updateOneAddToSet rest i a
      (u :: r.1, r.2)

/-- Store write `updateOne` at the `DB` level. -/
def dbUpdateAddToSet (db : DB) (i : IdVal) (a : String) : DB × Nat :=
  let r := updateOneAddToSet db.users i a
  (⟨r.1⟩, r.2)

/-- Model of `cleanUserObject`: rewrite `_id` to its string form
(`userObject._id = userObject._id.toString()`). -/
def cleanUserObject (u : User) : User :=
  { u with _id := IdVal.str (idToString u._id) }

/-- Model of `cleanUserObject` applied to a `findOne` result that may be
`null`: on `null`, `userObject._id.toString()` raises a runtime
`TypeError`. -/
def cleanUserObjectOpt : Option User → Except Err User
  | some u => Except.ok (cleanUserObject u)
  | none => Except.error Err.typeError

/-- Embedding of `createUser(email, username, password)`.  `salt` is the
salt drawn by `bcrypt.hash`, `newId` the ObjectId string the store assigns
on insert (assumed fresh and well formed, as Mongo guarantees). -/
def createUser (email username password : String) (salt : Nat) (newId : String) (db : DB) : Res User :=
  let sig := getFunctionSignature "CreateUser"
  let email := strTrim email
  let username := strTrim username
  if !isEmail email then
    ⟨Except.error (Err.validation sig "email" email), db, []⟩
  else if !isAlphanumeric username then
    ⟨Except.error (Err.validation sig "username" username), db, []⟩
  else if !isStrongPassword password then
    ⟨Except.error (Err.validation sig "password" password), db, []⟩
  else
    let hashed := bcryptHash (PwVal.str password) 16 salt
    match dbFindOneByEmail db email with
    | some _ =>
      ⟨Except.error (Err.conflict sig email), db, [StoreOp.findOneEmail email]⟩
    | none =>
      let inserted : User :=
        { _id := IdVal.oid newId, email := email, username := username,
          password := hashed, articles := [] }
      let db2 : DB := ⟨db.users ++ [inserted]⟩
      -- insertOne on the in-memory store always acknowledges and returns
      -- the fresh identifier, so the userNotCreated branch is not taken
      let acknowledged := true
      let insertedId : Option IdVal := some (IdVal.oid newId)
      let log := [StoreOp.findOneEmail email, StoreOp.insertOne email username, StoreOp.findOneId newId]
      if !(acknowledged && insertedId.isSome) then
        ⟨Except.error (Err.notCreated sig email), db2, [StoreOp.findOneEmail email, StoreOp.insertOne email username]⟩
      else
        ⟨cleanUserObjectOpt (dbFindOneById db2 (IdVal.oid newId)), db2, log⟩

/-- Trace embedding of `createUser`: identical control flow, with each
store response an explicit input, modelling runs where the store's answers
between two awaits are arbitrary. -/
def createUserTr (email username password : String) (salt : Nat)
    (findEmailResp : Option User) (insertAck : Bool) (insertedId : Option IdVal)
    (rereadResp : Option User) : Except Err User :=
  let sig := getFunctionSignature "CreateUser"
  let email := strTrim email
  let username := strTrim username
  if !isEmail email then
    Except.error (Err.validation sig "email" email)
  else if !isAlphanumeric username then
    Except.error (Err.validation sig "username" username)
  else if !isStrongPassword password then
    Except.error (Err.validation sig "password" password)
  else
    let _hashed := bcryptHash (PwVal.str password) 16 salt
    match findEmailResp with
    | some _ => Except.error (Err.conflict sig email)
    | none =>
      if !(insertAck && insertedId.isSome) then
        Except.error (Err.notCreated sig email)
      else
        cleanUserObjectOpt rereadResp

/-- Embedding of `getUserById(id)`. -/
def getUserById (id : String) (db : DB) : Res User :=
  let sig := getFunctionSignature "GetUserById"
  if !isValidObjectId id then
    ⟨Except.error (Err.validation sig "ObjectId" id), db, []⟩
  else
    match dbFindOneById db (mkObjectId id) with
    | none => ⟨Except.error (Err.notFound sig id), db, [StoreOp.findOneId id]⟩
    | some u => ⟨Except.ok (cleanUserObject u), db, [StoreOp.findOneId id]⟩

/-- Embedding of `deleteUserById(id)`. -/
def deleteUserById (id : String) (db : DB) : Res User :=
  let sig := getFunctionSignature "DeleteUserById"
  if !isValidObjectId id then
    ⟨Except.error (Err.validation sig "ObjectId" id), db, []⟩
  else
    match dbFindOneById db (mkObjectId id) with
    | none => ⟨Except.error (Err.notFound sig id), db, [StoreOp.findOneId id]⟩
    | some user =>
      let r := dbDeleteOneById db (mkObjectId id)
      if r.2 ≠ 1 then
        ⟨Except.error (Err.notDeleted sig id), r.1, [StoreOp.findOneId id, StoreOp.deleteOneId id]⟩
      else
        ⟨Except.ok (cleanUserObject user), r.1, [StoreOp.findOneId id, StoreOp.deleteOneId id]⟩

/-- Trace embedding of `deleteUserById`: the lookup response and the
deleted count the store reports are explicit inputs. -/
def deleteUserByIdTr (id : String) (findResp : Option User) (deletedCount : Nat) : Except Err User :=
  let sig := getFunctionSignature "DeleteUserById"
  if !isValidObjectId id then
    Except.error (Err.validation sig "ObjectId" id)
  else
    match findResp with
    | none => Except.error (Err.notFound sig id)
    | some user =>
      if deletedCount ≠ 1 then Except.error (Err.notDeleted sig id)
      else Except.ok (cleanUserObject user)

/-- Embedding of `addArticleToAuthor(userId, articleId)`. -/
def addArticleToAuthor (userId articleId : String) (db : DB) : Res User :=
  let sig := getFunctionSignature "AddArticleToAuthor"
  if !isValidObjectId userId then
    ⟨Except.error (Err.validation sig "ObjectId" userId), db, []⟩
  else if !isValidObjectId articleId then
    ⟨Except.error (Err.validation sig "ObjectId" articleId), db, []⟩
  else
    let r := dbUpdateAddToSet db (mkObjectId userId) articleId
    if r.2 ≠ 1 then
      ⟨Except.error (Err.articleNotAdded sig userId articleId), r.1, [StoreOp.updateAddToSet userId articleId]⟩
    else
      ⟨cleanUserObjectOpt (dbFindOneById r.1 (mkObjectId userId)), r.1,
        [StoreOp.updateAddToSet userId articleId, StoreOp.findOneId userId]⟩

/-- Embedding of `checkUserWithEmail(email, password)`.  The source trims
the supplied password, hashes it (`bcrypt.hash(trim(password), 16)`), and
then calls `bcrypt.compare(user.password, password)` with the stored value
as the candidate and the freshly hashed input as the stored hash.  `salt`
is the salt drawn by that hash call.  The source also reuses the
"CreateUser" signature here. -/
def checkUserWithEmail (email password : String) (salt : Nat) (db : DB) : Res User :=
  let sig := getFunctionSignature "CreateUser"
  let email := strTrim email
  let password := bcryptHash (PwVal.str (strTrim password)) 16 salt
  if !isEmail email then
    ⟨Except.error (Err.validation sig "email" email), db, []⟩
  else
    let users := dbFindByEmail db email
    match users.find? (fun u => bcryptCompare u.password password) with
    | some u => ⟨Except.ok (cleanUserObject u), db, [StoreOp.findAllEmail email]⟩
    | none => ⟨Except.error (Err.authEmail sig email), db, [StoreOp.findAllEmail email]⟩

/-- Embedding of `checkUserWithUsername(username, password)`: trims both
inputs and calls `bcrypt.compare(password, user.password)` with the
trimmed supplied password as the candidate. -/
def checkUserWithUsername (username password : String) (db : DB) : Res User :=
  let sig := getFunctionSignature "CheckUserWithUsername"
  let username := strTrim username
  let password := strTrim password
  if !isAlphanumeric username then
    ⟨Except.error (Err.validation sig "username" username), db, []⟩
  else
    let users := dbFindByUsername db username
    match users.find? (fun u => bcryptCompare (PwVal.str password) u.password) with
    | some u => ⟨Except.ok (cleanUserObject u), db, [StoreOp.findAllUsername username]⟩
    | none => ⟨Except.error (Err.authUsername sig username), db, [StoreOp.findAllUsername username]⟩

/-- Concrete stored user: created with email `a@b.com`, username `alice`
and plaintext password `Abc123!x`, so the persisted password is the bcrypt
hash of that plaintext. -/
def user0 : User :=
  { _id := IdVal.oid "aaaaaaaaaaaaaaaaaaaaaaaa", email := "a@b.com", username := "alice",
    password := PwVal.hashOf (PwVal.str "Abc123!x") 16 0, articles := [] }

/-- Concrete store holding exactly `user0`. -/
def db0 : DB := ⟨[user0]⟩

/-- Concrete stored user whose password ` Abc12345` has a leading space
(the string passes the strength policy, since the space counts as a
symbol) and was hashed untrimmed, as `createUser` does. -/
def userW : User :=
  { _id := IdVal.oid "eeeeeeeeeeeeeeeeeeeeeeee", email := "w@b.com", username := "walter",
    password := PwVal.hashOf (PwVal.str " Abc12345") 16 0, articles := [] }

/-- Concrete store holding exactly `userW`. -/
def dbW : DB := ⟨[userW]⟩

/-- The record `createUser` hands to `insertOne` (with the identifier the
store assigns to it): trimmed email and username, hashed password, no
articles. -/
def insertedUser (email username password : String) (salt : Nat) (newId : String) : User :=
  { _id := IdVal.oid newId, email := strTrim email, username := strTrim username,
    password := bcryptHash (PwVal.str password) 16 salt, articles := [] }

/-- After `deleteOne` removed the only record carrying an identifier, a
lookup of that identifier finds nothing (identifiers are unique in the
store, as Mongo guarantees for `_id`). -/
theorem removeFirstById_find?_none (i : IdVal) (l : List User) (h : (l.map User._id).Nodup) :
    (removeFirstById i l).find? (fun u => decide (u._id = i)) = none := by
  induction l with
  | nil => rfl
  | cons u rest ih =>
    simp only [List.map_cons, List.nodup_cons] at h
    by_cases hu : u._id = i
    · rw [removeFirstById, if_pos hu, List.find?_eq_none]
      intro x hx
      simp only [decide_eq_true_eq]
      intro hxi
      exact h.1 (by rw [hu, ← hxi]; exact List.mem_map_of_mem User._id hx)
    · rw [removeFirstById, if_neg hu]
      simp only [List.find?_cons, decide_eq_false hu]
      exact ih h.2

/-- `deleteOne` removes exactly one record when a match exists. -/
theorem removeFirstById_length (i : IdVal) (l : List User)
    (h : l.any (fun u => decide (u._id = i)) = true) :
    (removeFirstById i l).length + 1 = l.length := by
  induction l with
  | nil => simp at h
  | cons u rest ih =>
    by_cases hu : u._id = i
    · simp [removeFirstById, hu]
    · simp only [List.any_cons, Bool.or_eq_true, decide_eq_true_eq] at h
      rcases h with h | h
      · exact absurd h hu
      · simp only [removeFirstById, if_neg hu, List.length_cons]
        rw [ih (by simpa using h)]

/-- Effect of `$addToSet` on the first record matching an identifier: the
record is updated in place (so a later lookup finds the updated record)
and the modified count is 1 exactly when the article was absent. -/
theorem updateOneAddToSet_found (i : IdVal) (a : String) (l : List User) (u : User)
    (h : l.find? (fun v => decide (v._id = i)) = some u) :
    (updateOneAddToSet l i a).1.find? (fun v => decide (v._id = i)) = some (addToSetArticles a u) ∧
    (updateOneAddToSet l i a).2 = (if a ∈ u.articles then 0 else 1) := by
  induction l with
  | nil => simp at h
  | cons w rest ih =>
    by_cases hw : w._id = i
    · simp only [List.find?_cons, decide_eq_true hw] at h
      have hwu : w = u := Option.some.inj h
      subst hwu
      by_cases ha : a ∈ w.articles
      · rw [updateOneAddToSet, if_pos hw, if_pos ha]
        refine ⟨?_, by rw [if_pos ha]⟩
        simp only [List.find?_cons, decide_eq_true hw, addToSetArticles, if_pos ha]
      · rw [updateOneAddToSet, if_pos hw, if_neg ha]
        refine ⟨?_, by rw [if_neg ha]⟩
        simp only [List.find?_cons, decide_eq_true hw, addToSetArticles, if_neg ha]
    · simp only [List.find?_cons, decide_eq_false hw] at h
      have hr := ih h
      rw [updateOneAddToSet, if_neg hw]
      refine ⟨?_, hr.2⟩
      simp only [List.find?_cons, decide_eq_false hw]
      exact hr.1

/-- A freshly inserted record is found by a lookup of its identifier when
no earlier record carries that identifier. -/
theorem find?_append_fresh (l : List User) (x : User) (i : IdVal)
    (h : ∀ v ∈ l, v._id ≠ i) (hx : x._id = i) :
    (l ++ [x]).find? (fun v => decide (v._id = i)) = some x := by
  rw [List.find?_append]
  have h1 : l.find? (fun v => decide (v._id = i)) = none := by
    rw [List.find?_eq_none]
    intro v hv
    simp [h v hv]
  rw [h1]
  simp [hx]

/-- C1: the claim states that `checkUserWithEmail` with a stored user's
email and the correct plaintext password returns that user.  The code
refutes it: it hashes the trimmed supplied password and calls the compare
primitive with the stored hash in the candidate position, so even the
correct password is rejected and the call throws the same
`AuthenticationError` as a wrong password or an unknown email.  At the
concrete store `db0` (holding `user0`, created with password `Abc123!x`),
all three calls throw, and the two failure cases the claim describes do
have the same error shape. -/
theorem checkUserWithEmail_rejects_correct_password :
    (checkUserWithEmail "a@b.com" "Abc123!x" 5 db0).result
        = Except.error (Err.authEmail "CreateUser" "a@b.com") ∧
    (checkUserWithEmail "a@b.com" "WrongPw9!" 5 db0).result
        = Except.error (Err.authEmail "CreateUser" "a@b.com") ∧
    (checkUserWithEmail "missing@b.com" "Abc123!x" 5 db0).result
        = Except.error (Err.authEmail "CreateUser" "missing@b.com") ∧
    isAuthenticationError (Err.authEmail "CreateUser" "a@b.com") = true := by
  decide

/-- C2: the claim states that both credential checks call the hash-verify
primitive with the supplied plaintext as candidate and the stored hash as
hash, never re-hashing the input.  The code refutes it: on identical
credentials (username flow vs. email flow for the same stored user),
`checkUserWithUsername` verifies `compare(plaintext, storedHash)` and
succeeds, while `checkUserWithEmail` re-hashes the input and calls
`compare(storedHash, freshHash)`, and fails. -/
theorem authentication_flows_disagree :
    (checkUserWithUsername "alice" "Abc123!x" db0).result
        = Except.ok (cleanUserObject user0) ∧
    (checkUserWithEmail "a@b.com" "Abc123!x" 5 db0).result
        = Except.error (Err.authEmail "CreateUser" "a@b.com") := by
  decide

/-- C3: when the trimmed email is not a valid email address, or the
trimmed username is not alphanumeric, or the password fails the strength
policy, `createUser` throws a ValidationError naming the offending field
and value, leaves the store untouched, and performs no store access at
all (its store-access log is empty). -/
theorem createUser_invalid_input_validation
    (email username password : String) (salt : Nat) (newId : String) (db : DB) :
    (isEmail (strTrim email) = false →
      createUser email username password salt newId db
        = ⟨Except.error (Err.validation "CreateUser" "email" (strTrim email)), db, []⟩) ∧
    (isEmail (strTrim email) = true → isAlphanumeric (strTrim username) = false →
      createUser email username password salt newId db
        = ⟨Except.error (Err.validation "CreateUser" "username" (strTrim username)), db, []⟩) ∧
    (isEmail (strTrim email) = true → isAlphanumeric (strTrim username) = true →
        isStrongPassword password = false →
      createUser email username password salt newId db
        = ⟨Except.error (Err.validation "CreateUser" "password" password), db, []⟩) := by
  refine ⟨fun h1 => ?_, fun h1 h2 => ?_, fun h1 h2 h3 => ?_⟩
  · simp [createUser, getFunctionSignature, h1]
  · simp [createUser, getFunctionSignature, h1, h2]
  · simp [createUser, getFunctionSignature, h1, h2, h3]

/-- Witness for C3 at the spec's own example input `email="not-an-email"`:
the call throws the ValidationError naming the email field and performs
zero store calls. -/
theorem createUser_invalid_input_validation_witness :
    isEmail (strTrim "not-an-email") = false ∧
    createUser "not-an-email" "alice" "Abc123!x" 0 "cccccccccccccccccccccccc" db0
      = ⟨Except.error (Err.validation "CreateUser" "email" (strTrim "not-an-email")), db0, []⟩ :=
  ⟨by decide,
    (createUser_invalid_input_validation "not-an-email" "alice" "Abc123!x" 0
      "cccccccccccccccccccccccc" db0).1 (by decide)⟩

/-- C4: for a valid input triple whose (trimmed) email already has a
record in the store, `createUser` throws a ConflictError, performs only
the uniqueness read, and inserts nothing: the store is unchanged, for any
username and password that pass validation. -/
theorem createUser_duplicate_email_conflict
    (email username password : String) (salt : Nat) (newId : String) (db : DB) (u : User)
    (h1 : isEmail (strTrim email) = true)
    (h2 : isAlphanumeric (strTrim username) = true)
    (h3 : isStrongPassword password = true)
    (h4 : dbFindOneByEmail db (strTrim email) = some u) :
    createUser email username password salt newId db
      = ⟨Except.error (Err.conflict "CreateUser" (strTrim email)), db,
          [StoreOp.findOneEmail (strTrim email)]⟩ ∧
    isPersistenceError (Err.conflict "CreateUser" (strTrim email)) = false := by
  constructor
  · simp [createUser, getFunctionSignature, h1, h2, h3, h4]
  · rfl

/-- Witness for C4: creating a second account with `user0`'s email
`a@b.com` (different username and password) throws the ConflictError and
leaves the store unchanged. -/
theorem createUser_duplicate_email_conflict_witness :
    dbFindOneByEmail db0 (strTrim "a@b.com") = some user0 ∧
    createUser "a@b.com" "bob" "Zz9!aaaa" 1 "cccccccccccccccccccccccc" db0
      = ⟨Except.error (Err.conflict "CreateUser" (strTrim "a@b.com")), db0,
          [StoreOp.findOneEmail (strTrim "a@b.com")]⟩ :=
  ⟨by decide,
    (createUser_duplicate_email_conflict "a@b.com" "bob" "Zz9!aaaa" 1
      "cccccccccccccccccccccccc" db0 user0 (by decide) (by decide) (by decide) (by decide)).1⟩

/-- C5: for a valid email/username/password triple (fresh email, a fresh
well-formed store identifier), `createUser` returns the re-read record
normalized: its `id` is the non-empty identifier string, the persisted
record stores exactly the bcrypt hash of the password with the fixed cost
factor 16, and neither the persisted nor the returned password field
equals the plaintext input. -/
theorem createUser_success
    (email username password : String) (salt : Nat) (newId : String) (db : DB)
    (h1 : isEmail (strTrim email) = true)
    (h2 : isAlphanumeric (strTrim username) = true)
    (h3 : isStrongPassword password = true)
    (h4 : dbFindOneByEmail db (strTrim email) = none)
    (h5 : isValidObjectId newId = true)
    (h6 : ∀ v ∈ db.users, v._id ≠ IdVal.oid newId) :
    createUser email username password salt newId db
      = ⟨Except.ok (cleanUserObject (insertedUser email username password salt newId)),
          ⟨db.users ++ [insertedUser email username password salt newId]⟩,
          [StoreOp.findOneEmail (strTrim email),
           StoreOp.insertOne (strTrim email) (strTrim username),
           StoreOp.findOneId newId]⟩ ∧
    (insertedUser email username password salt newId).password
        = bcryptHash (PwVal.str password) 16 salt ∧
    (insertedUser email username password salt newId).password ≠ PwVal.str password ∧
    (cleanUserObject (insertedUser email username password salt newId)).password
        ≠ PwVal.str password ∧
    (cleanUserObject (insertedUser email username password salt newId))._id
        = IdVal.str newId ∧
    newId ≠ "" := by
  have hre : dbFindOneById ⟨db.users ++ [insertedUser email username password salt newId]⟩
      (IdVal.oid newId) = some (insertedUser email username password salt newId) :=
    find?_append_fresh db.users _ _ h6 rfl
  simp only [insertedUser, bcryptHash] at hre
  refine ⟨?_, rfl, ?_, ?_, rfl, ?_⟩
  · simp [createUser, getFunctionSignature, h1, h2, h3, h4, hre, cleanUserObjectOpt,
      insertedUser, bcryptHash]
  · simp [insertedUser, bcryptHash]
  · simp [cleanUserObject, insertedUser, bcryptHash]
  · intro h
    subst h
    exact absurd h5 (by decide)

/-- Witness for C5: creating `carol` with a fresh email against `db0`
returns the normalized inserted record, whose password field is the hash,
not the plaintext. -/
theorem createUser_success_witness :
    createUser "c@d.com" "carol" "Abc123!x" 2 "bbbbbbbbbbbbbbbbbbbbbbbb" db0
      = ⟨Except.ok (cleanUserObject (insertedUser "c@d.com" "carol" "Abc123!x" 2 "bbbbbbbbbbbbbbbbbbbbbbbb")),
          ⟨db0.users ++ [insertedUser "c@d.com" "carol" "Abc123!x" 2 "bbbbbbbbbbbbbbbbbbbbbbbb"]⟩,
          [StoreOp.findOneEmail (strTrim "c@d.com"),
           StoreOp.insertOne (strTrim "c@d.com") (strTrim "carol"),
           StoreOp.findOneId "bbbbbbbbbbbbbbbbbbbbbbbb"]⟩ ∧
    (insertedUser "c@d.com" "carol" "Abc123!x" 2 "bbbbbbbbbbbbbbbbbbbbbbbb").password
        ≠ PwVal.str "Abc123!x" ∧
    "bbbbbbbbbbbbbbbbbbbbbbbb" ≠ "" := by
  have T := createUser_success "c@d.com" "carol" "Abc123!x" 2 "bbbbbbbbbbbbbbbbbbbbbbbb" db0
    (by decide) (by decide) (by decide) (by decide) (by decide) (by decide)
  exact ⟨T.1, T.2.2.1, T.2.2.2.2.2⟩

/-- C6: `getUserById` throws a ValidationError on a malformed identifier
without any store access, throws a NotFoundError on a well-formed but
absent identifier, and on an existing identifier returns the matching
record normalized, with `_id` the plain string form of the native
identifier. -/
theorem getUserById_spec (id : String) (db : DB) :
    (isValidObjectId id = false →
      getUserById id db = ⟨Except.error (Err.validation "GetUserById" "ObjectId" id), db, []⟩) ∧
    (isValidObjectId id = true → dbFindOneById db (IdVal.oid id) = none →
      getUserById id db
        = ⟨Except.error (Err.notFound "GetUserById" id), db, [StoreOp.findOneId id]⟩) ∧
    (∀ u, isValidObjectId id = true → dbFindOneById db (IdVal.oid id) = some u →
      getUserById id db = ⟨Except.ok (cleanUserObject u), db, [StoreOp.findOneId id]⟩ ∧
      (cleanUserObject u)._id = IdVal.str (idToString u._id)) := by
  refine ⟨fun h1 => ?_, fun h1 h2 => ?_, fun u h1 h2 => ⟨?_, rfl⟩⟩
  · simp [getUserById, getFunctionSignature, h1]
  · simp [getUserById, getFunctionSignature, mkObjectId, h1, h2]
  · simp [getUserById, getFunctionSignature, mkObjectId, h1, h2]

/-- Witness for C6 covering all three cases against `db0`: the spec's
example `"123"` is malformed, `"bbb...b"` is well formed but absent, and
`user0`'s identifier is present and comes back with a string id. -/
theorem getUserById_spec_witness :
    getUserById "123" db0
      = ⟨Except.error (Err.validation "GetUserById" "ObjectId" "123"), db0, []⟩ ∧
    getUserById "bbbbbbbbbbbbbbbbbbbbbbbb" db0
      = ⟨Except.error (Err.notFound "GetUserById" "bbbbbbbbbbbbbbbbbbbbbbbb"), db0,
          [StoreOp.findOneId "bbbbbbbbbbbbbbbbbbbbbbbb"]⟩ ∧
    getUserById "aaaaaaaaaaaaaaaaaaaaaaaa" db0
      = ⟨Except.ok (cleanUserObject user0), db0, [StoreOp.findOneId "aaaaaaaaaaaaaaaaaaaaaaaa"]⟩ :=
  ⟨(getUserById_spec "123" db0).1 (by decide),
   (getUserById_spec "bbbbbbbbbbbbbbbbbbbbbbbb" db0).2.1 (by decide) (by decide),
   ((getUserById_spec "aaaaaaaaaaaaaaaaaaaaaaaa" db0).2.2 user0 (by decide) (by decide)).1⟩

/-- C7: deleting an existing user (store identifiers unique, as Mongo
guarantees for `_id`) removes exactly one record, returns the normalized
pre-delete snapshot, and a subsequent `getUserById` with the same
identifier throws NotFoundError; in any run where the store reports a
deleted count other than 1, the code throws the `userNotDeleted`
PersistenceError instead. -/
theorem deleteUserById_spec (db : DB) (id : String) (u : User)
    (h1 : isValidObjectId id = true)
    (hnodup : (db.users.map User._id).Nodup)
    (hfind : dbFindOneById db (IdVal.oid id) = some u) :
    (deleteUserById id db).result = Except.ok (cleanUserObject u) ∧
    (deleteUserById id db).db.users.length + 1 = db.users.length ∧
    (getUserById id (deleteUserById id db).db).result
        = Except.error (Err.notFound "GetUserById" id) ∧
    (∀ c : Nat, c ≠ 1 →
      deleteUserByIdTr id (some u) c = Except.error (Err.notDeleted "DeleteUserById" id)) ∧
    isPersistenceError (Err.notDeleted "DeleteUserById" id) = true := by
  have hfind' : List.find? (fun v => decide (v._id = IdVal.oid id)) db.users = some u := hfind
  have hmem : u ∈ db.users := List.mem_of_find?_eq_some hfind'
  have hpred := List.find?_some hfind'
  have hid : u._id = IdVal.oid id := by simpa using hpred
  have hany : db.users.any (fun v => decide (v._id = IdVal.oid id)) = true :=
    List.any_eq_true.mpr ⟨u, hmem, decide_eq_true hid⟩
  have hdel : dbDeleteOneById db (IdVal.oid id)
      = (⟨removeFirstById (IdVal.oid id) db.users⟩, 1) := by
    simp [dbDeleteOneById, hany]
  have hres : deleteUserById id db
      = ⟨Except.ok (cleanUserObject u), ⟨removeFirstById (IdVal.oid id) db.users⟩,
          [StoreOp.findOneId id, StoreOp.deleteOneId id]⟩ := by
    simp [deleteUserById, getFunctionSignature, mkObjectId, h1, hfind, hdel]
  refine ⟨by rw [hres], ?_, ?_, fun c hc => ?_, rfl⟩
  · rw [hres]
    exact removeFirstById_length _ _ hany
  · rw [hres]
    simp [getUserById, getFunctionSignature, mkObjectId, h1, dbFindOneById,
      removeFirstById_find?_none _ _ hnodup]
  · simp [deleteUserByIdTr, getFunctionSignature, h1, hc]

/-- Witness for C7: deleting `user0` from `db0` returns its normalized
snapshot, the follow-up lookup throws NotFoundError, and a run reporting
deleted count 0 throws the PersistenceError. -/
theorem deleteUserById_spec_witness :
    (deleteUserById "aaaaaaaaaaaaaaaaaaaaaaaa" db0).result
        = Except.ok (cleanUserObject user0) ∧
    (getUserById "aaaaaaaaaaaaaaaaaaaaaaaa" (deleteUserById "aaaaaaaaaaaaaaaaaaaaaaaa" db0).db).result
        = Except.error (Err.notFound "GetUserById" "aaaaaaaaaaaaaaaaaaaaaaaa") ∧
    deleteUserByIdTr "aaaaaaaaaaaaaaaaaaaaaaaa" (some user0) 0
        = Except.error (Err.notDeleted "DeleteUserById" "aaaaaaaaaaaaaaaaaaaaaaaa") := by
  have T := deleteUserById_spec db0 "aaaaaaaaaaaaaaaaaaaaaaaa" user0
    (by decide) (by decide) (by decide)
  exact ⟨T.1, T.2.2.1, T.2.2.2.1 0 (by decide)⟩

/-- C8: calling `addArticleToAuthor` twice with the same user and article
identifiers leaves that user's `articles` containing the id exactly once
(the `$addToSet` write is idempotent at the data level), while the first
call returns the updated record and the second call throws the
`articleNotAdded` PersistenceError because the store reports no document
modified. -/
theorem addArticleToAuthor_twice (db : DB) (userId articleId : String) (u : User)
    (h1 : isValidObjectId userId = true)
    (h2 : isValidObjectId articleId = true)
    (hfind : dbFindOneById db (IdVal.oid userId) = some u)
    (habs : articleId ∉ u.articles) :
    (addArticleToAuthor userId articleId db).result
        = Except.ok (cleanUserObject { u with articles := u.articles ++ [articleId] }) ∧
    (addArticleToAuthor userId articleId (addArticleToAuthor userId articleId db).db).result
        = Except.error (Err.articleNotAdded "AddArticleToAuthor" userId articleId) ∧
    isPersistenceError (Err.articleNotAdded "AddArticleToAuthor" userId articleId) = true ∧
    dbFindOneById (addArticleToAuthor userId articleId
        (addArticleToAuthor userId articleId db).db).db (IdVal.oid userId)
      = some { u with articles := u.articles ++ [articleId] } ∧
    ({ u with articles := u.articles ++ [articleId] } : User).articles.countP
        (fun x => decide (x = articleId)) = 1 := by
  have hfind' : List.find? (fun v => decide (v._id = IdVal.oid userId)) db.users = some u := hfind
  have hu1 := updateOneAddToSet_found (IdVal.oid userId) articleId db.users u hfind'
  have hset : addToSetArticles articleId u = { u with articles := u.articles ++ [articleId] } := by
    rw [addToSetArticles, if_neg habs]
  rw [hset] at hu1
  have hcount1 : (updateOneAddToSet db.users (IdVal.oid userId) articleId).2 = 1 := by
    rw [hu1.2, if_neg habs]
  have hres1 : addArticleToAuthor userId articleId db
      = ⟨Except.ok (cleanUserObject { u with articles := u.articles ++ [articleId] }),
          ⟨(updateOneAddToSet db.users (IdVal.oid userId) articleId).1⟩,
          [StoreOp.updateAddToSet userId articleId, StoreOp.findOneId userId]⟩ := by
    simp [addArticleToAuthor, getFunctionSignature, mkObjectId, h1, h2, dbUpdateAddToSet,
      hcount1, dbFindOneById, hu1.1, cleanUserObjectOpt]
  have hu2 := updateOneAddToSet_found (IdVal.oid userId) articleId
    (updateOneAddToSet db.users (IdVal.oid userId) articleId).1
    { u with articles := u.articles ++ [articleId] } hu1.1
  have hmem2 : articleId ∈ ({ u with articles := u.articles ++ [articleId] } : User).articles := by
    simp
  have hcount2 : (updateOneAddToSet (updateOneAddToSet db.users (IdVal.oid userId) articleId).1
      (IdVal.oid userId) articleId).2 = 0 := by
    rw [hu2.2, if_pos hmem2]
  have hset2 : addToSetArticles articleId { u with articles := u.articles ++ [articleId] }
      = { u with articles := u.articles ++ [articleId] } := by
    rw [addToSetArticles, if_pos hmem2]
  have hres2 : addArticleToAuthor userId articleId (addArticleToAuthor userId articleId db).db
      = ⟨Except.error (Err.articleNotAdded "AddArticleToAuthor" userId articleId),
          ⟨(updateOneAddToSet (updateOneAddToSet db.users (IdVal.oid userId) articleId).1
              (IdVal.oid userId) articleId).1⟩,
          [StoreOp.updateAddToSet userId articleId]⟩ := by
    rw [hres1]
    simp [addArticleToAuthor, getFunctionSignature, mkObjectId, h1, h2, dbUpdateAddToSet, hcount2]
  refine ⟨by rw [hres1], by rw [hres2], rfl, ?_, ?_⟩
  · rw [hres2]
    show List.find? _ _ = _
    rw [hu2.1, hset2]
  · rw [List.countP_append]
    have h0 : u.articles.countP (fun x => decide (x = articleId)) = 0 :=
      List.countP_eq_zero.mpr (fun b hb hc => habs (of_decide_eq_true hc ▸ hb))
    simp [h0]

/-- Witness for C8: adding an article to `user0` twice; the second call
throws, and the article id appears exactly once afterwards. -/
theorem addArticleToAuthor_twice_witness :
    (addArticleToAuthor "aaaaaaaaaaaaaaaaaaaaaaaa" "dddddddddddddddddddddddd" db0).result
        = Except.ok (cleanUserObject
            { user0 with articles := user0.articles ++ ["dddddddddddddddddddddddd"] }) ∧
    (addArticleToAuthor "aaaaaaaaaaaaaaaaaaaaaaaa" "dddddddddddddddddddddddd"
        (addArticleToAuthor "aaaaaaaaaaaaaaaaaaaaaaaa" "dddddddddddddddddddddddd" db0).db).result
        = Except.error (Err.articleNotAdded "AddArticleToAuthor"
            "aaaaaaaaaaaaaaaaaaaaaaaa" "dddddddddddddddddddddddd") ∧
    ({ user0 with articles := user0.articles ++ ["dddddddddddddddddddddddd"] } : User).articles.countP
        (fun x => decide (x = "dddddddddddddddddddddddd")) = 1 := by
  have T := addArticleToAuthor_twice db0 "aaaaaaaaaaaaaaaaaaaaaaaa" "dddddddddddddddddddddddd"
    user0 (by decide) (by decide) (by decide) (by decide)
  exact ⟨T.1, T.2.1, T.2.2.2.2⟩

/-- C9 (amended): after a successful insert (store acknowledged, fresh
identifier returned), `createUser` re-reads the record by that identifier
and returns the re-read record normalized; but in a run where the re-read
finds no record, it fails with the runtime `TypeError` from
`cleanUserObject` dereferencing `null`, which is not a PersistenceError. -/
theorem createUserTr_reread (email username password : String) (salt : Nat)
    (insertedId : IdVal) (reread : Option User)
    (h1 : isEmail (strTrim email) = true)
    (h2 : isAlphanumeric (strTrim username) = true)
    (h3 : isStrongPassword password = true) :
    (∀ u, reread = some u →
      createUserTr email username password salt none true (some insertedId) reread
        = Except.ok (cleanUserObject u)) ∧
    (reread = none →
      createUserTr email username password salt none true (some insertedId) reread
        = Except.error Err.typeError) ∧
    isPersistenceError Err.typeError = false := by
  refine ⟨fun u hr => ?_, fun hr => ?_, rfl⟩ <;> subst hr <;>
    simp [createUserTr, getFunctionSignature, h1, h2, h3, cleanUserObjectOpt]

/-- Counterexample for C9 as stated: in a run with valid input, no email
conflict and an acknowledged insert whose re-read finds no record, the
call fails with the runtime `TypeError`, not a PersistenceError. -/
theorem createUser_reread_missing_not_persistence :
    createUserTr "a@b.com" "alice" "Abc123!x" 0 none true
        (some (IdVal.oid "cccccccccccccccccccccccc")) none
      = Except.error Err.typeError ∧
    isPersistenceError Err.typeError = false := by
  decide

/-- Witness for C9's amended theorem: a run whose re-read finds the
record returns it normalized. -/
theorem createUserTr_reread_witness :
    isEmail (strTrim "a@b.com") = true ∧
    createUserTr "a@b.com" "alice" "Abc123!x" 0 none true
        (some (IdVal.oid "cccccccccccccccccccccccc")) (some user0)
      = Except.ok (cleanUserObject user0) :=
  ⟨by decide,
    (createUserTr_reread "a@b.com" "alice" "Abc123!x" 0
      (IdVal.oid "cccccccccccccccccccccccc") (some user0)
      (by decide) (by decide) (by decide)).1 user0 rfl⟩

/-- C10: `checkUserWithUsername` trims the supplied password before the
compare call, while `createUser` hashed the password untrimmed; hence a
stored user whose password (accepted by the strength policy) carries
leading or trailing whitespace is never returned by
`checkUserWithUsername` called with the identical password string. -/
theorem checkUserWithUsername_untrimmed_password (db : DB) (u : User) (p : String) (c t : Nat)
    (_hmem : u ∈ db.users)
    (hpw : u.password = PwVal.hashOf (PwVal.str p) c t)
    (_hstrong : isStrongPassword p = true)
    (htrim : strTrim p ≠ p) :
    (checkUserWithUsername u.username p db).result ≠ Except.ok (cleanUserObject u) := by
  intro hok
  by_cases hal : isAlphanumeric (strTrim u.username) = true
  · rcases hfw : (dbFindByUsername db (strTrim u.username)).find?
        (fun w => bcryptCompare (PwVal.str (strTrim p)) w.password) with _ | w
    · have : checkUserWithUsername u.username p db
          = ⟨Except.error (Err.authUsername "CheckUserWithUsername" (strTrim u.username)), db,
              [StoreOp.findAllUsername (strTrim u.username)]⟩ := by
        simp [checkUserWithUsername, getFunctionSignature, hal, hfw]
      rw [this] at hok
      simp at hok
    · have : checkUserWithUsername u.username p db
          = ⟨Except.ok (cleanUserObject w), db,
              [StoreOp.findAllUsername (strTrim u.username)]⟩ := by
        simp [checkUserWithUsername, getFunctionSignature, hal, hfw]
      rw [this] at hok
      simp only [Res.mk.injEq] at hok
      have hclean : cleanUserObject w = cleanUserObject u := by
        simpa using hok
      have hwp : w.password = u.password := by
        have := congrArg User.password hclean
        simpa [cleanUserObject] using this
      have hcmp := List.find?_some hfw
      rw [hwp, hpw] at hcmp
      simp [bcryptCompare] at hcmp
      exact htrim hcmp
  · have : checkUserWithUsername u.username p db
        = ⟨Except.error (Err.validation "CheckUserWithUsername" "username" (strTrim u.username)),
            db, []⟩ := by
      rw [Bool.not_eq_true] at hal
      simp [checkUserWithUsername, getFunctionSignature, hal]
    rw [this] at hok
    simp at hok

/-- Witness for C10: `userW` was created with password ` Abc12345`
(leading space, strong by the policy); `checkUserWithUsername` with the
identical string never returns the user. -/
theorem checkUserWithUsername_untrimmed_password_witness :
    userW ∈ dbW.users ∧
    userW.password = PwVal.hashOf (PwVal.str " Abc12345") 16 0 ∧
    isStrongPassword " Abc12345" = true ∧
    strTrim " Abc12345" ≠ " Abc12345" ∧
    (checkUserWithUsername userW.username " Abc12345" dbW).result
      ≠ Except.ok (cleanUserObject userW) :=
  ⟨by decide, rfl, by decide, by decide,
    checkUserWithUsername_untrimmed_password dbW userW " Abc12345" 16 0
      (by decide) rfl (by decide) (by decide)⟩

end Users
